import Mathlib

/-!
Verification of the airport tracking and analytics system's real-time
safety-monitoring core: the collision detection service, the altitude check
service, and the flight monitor service.

Modelling conventions:
* Redis hash values for `aircraft:<callsign>:position` keys are decimal strings
  parsed with `parseFloat`; we model the parsed numeric fields as rationals
  (`ℚ`), and JavaScript numbers appearing only in trigonometric computations
  as reals (`ℝ`).  Entry expiry (TTL) is modelled by the snapshot lists the
  services read: an expired entry is simply absent from the snapshot.
* The Neo4j zone lookup (`getAirportZoneInfo`) and the gate / schedule
  registries are external stores; they enter the model as oracle functions
  passed to the service, exactly at the interface the JavaScript code uses.
* `Date.now()` is modelled by an explicit `now : ℕ` parameter.
* Redis writes performed by `storeAlert` are modelled by explicit store
  states (`CollStore`, `AltStore`): a keyed `SET ... EX 300` entry list and
  the `lPush`/`lTrim`-maintained bounded active list.
-/

/-- RawEntry models one parsed Redis hash read from an `aircraft:*:position`
key: the fields written by `FlightMonitorService.storeLivePositions` and read
back by all three services.  The JavaScript truthiness test `data.callsign`
is modelled as `callsign ≠ ""`, and `data.on_ground === 'true'` as the
`on_ground` Boolean. -/
structure RawEntry where
  callsign : String
  latitude : ℚ
  longitude : ℚ
  altitude : ℚ
  velocity : ℚ
  heading : ℚ
  on_ground : Bool
deriving DecidableEq

namespace CollisionDetectionService

/-- SAFE_DISTANCE_KM is the default horizontal separation threshold
(`COLLISION_SAFE_DISTANCE_KM`, default '5'). -/
def SAFE_DISTANCE_KM : ℝ := 5

/-- SAFE_ALTITUDE_DIFF_FT is the default vertical separation threshold
(`COLLISION_SAFE_ALTITUDE_FT`, default '1000'). -/
def SAFE_ALTITUDE_DIFF_FT : ℚ := 1000

/-- atan2 models JavaScript `Math.atan2 y x` on real numbers (signed zeros
and NaN have no counterpart in `ℝ` and are out of scope). -/
noncomputable def atan2 (y x : ℝ) : ℝ :=
  if 0 < x then Real.arctan (y / x)
  else if x < 0 ∧ 0 ≤ y then Real.arctan (y / x) + Real.pi
  else if x < 0 ∧ y < 0 then Real.arctan (y / x) - Real.pi
  else if x = 0 ∧ 0 < y then Real.pi / 2
  else if x = 0 ∧ y < 0 then -(Real.pi / 2)
  else 0

/-- toRad models `toRad(degrees)`: `degrees * Math.PI / 180`. -/
noncomputable def toRad (degrees : ℝ) : ℝ := degrees * Real.pi / 180

/-- hav is the intermediate quantity `a` of `calculateDistance` (the haversine
of the central angle). -/
noncomputable def hav (lat1 lon1 lat2 lon2 : ℚ) : ℝ :=
  Real.sin (toRad ((lat2 : ℝ) - (lat1 : ℝ)) / 2) *
      Real.sin (toRad ((lat2 : ℝ) - (lat1 : ℝ)) / 2) +
    Real.cos (toRad (lat1 : ℝ)) * Real.cos (toRad (lat2 : ℝ)) *
      (Real.sin (toRad ((lon2 : ℝ) - (lon1 : ℝ)) / 2) *
        Real.sin (toRad ((lon2 : ℝ) - (lon1 : ℝ)) / 2))

/-- calculateDistance models `calculateDistance(lat1, lon1, lat2, lon2)`:
the haversine great-circle distance with Earth radius `R = 6371` km, where
`c = 2 * Math.atan2(Math.sqrt(a), Math.sqrt(1 - a))`. -/
noncomputable def calculateDistance (lat1 lon1 lat2 lon2 : ℚ) : ℝ :=
  6371 * (2 * atan2 (Real.sqrt (hav lat1 lon1 lat2 lon2))
    (Real.sqrt (1 - hav lat1 lon1 lat2 lon2)))

/-- round2 models `parseFloat(x.toFixed(2))`: rounding to two decimal places
(the value is exactly representable as a rational). -/
noncomputable def round2 (x : ℝ) : ℚ := (round (x * 100) : ℚ) / 100

/-- calculateSeverity models `calculateSeverity(distance, altitudeDiff)`:
the first-match severity ladder CRITICAL / HIGH / MEDIUM. -/
noncomputable def calculateSeverity (distance : ℝ) (altitudeDiff : ℚ) : String :=
  if distance < 2 ∧ altitudeDiff < 500 then "CRITICAL"
  else if distance < 3 ∧ altitudeDiff < 700 then "HIGH"
  else "MEDIUM"

/-- AircraftPosition models one element of the `positions` array built by
`checkCollisionRisks` from a raw snapshot entry. -/
structure AircraftPosition where
  callsign : String
  latitude : ℚ
  longitude : ℚ
  altitude : ℚ
  velocity : ℚ
  heading : ℚ
deriving DecidableEq

/-- CollisionAlert models the alert object built by `checkPairCollision` (the
rounded `distance` and `Math.round`ed `altitudeDiff` are rationals / integers;
`timestamp` carries the `Date.now()` value used in `id`). -/
structure CollisionAlert where
  id : String
  aircraft1 : String
  aircraft2 : String
  distance : ℚ
  altitudeDiff : ℤ
  severity : String
  positions1 : ℚ × ℚ × ℚ
  positions2 : ℚ × ℚ × ℚ
  timestamp : ℕ
deriving DecidableEq

/-- checkPairCollision models `checkPairCollision(aircraft1, aircraft2)`:
emit an alert exactly when the pair is unsafe
(`distance < SAFE_DISTANCE_KM && altitudeDiff < SAFE_ALTITUDE_DIFF_FT`). -/
noncomputable def checkPairCollision (now : ℕ) (a1 a2 : AircraftPosition) :
    Option CollisionAlert :=
  if calculateDistance a1.latitude a1.longitude a2.latitude a2.longitude <
        SAFE_DISTANCE_KM ∧
      |a1.altitude - a2.altitude| < SAFE_ALTITUDE_DIFF_FT then
    some
      { id := a1.callsign ++ "-" ++ a2.callsign ++ "-" ++ toString now
        aircraft1 := a1.callsign
        aircraft2 := a2.callsign
        distance :=
          round2 (calculateDistance a1.latitude a1.longitude a2.latitude a2.longitude)
        altitudeDiff := round |a1.altitude - a2.altitude|
        severity :=
          calculateSeverity
            (calculateDistance a1.latitude a1.longitude a2.latitude a2.longitude)
            |a1.altitude - a2.altitude|
        positions1 := (a1.latitude, a1.longitude, a1.altitude)
        positions2 := (a2.latitude, a2.longitude, a2.altitude)
        timestamp := now }
  else none

/-- collisionPositions models the `positions` array of `checkCollisionRisks`:
entries with a truthy callsign that are not on the ground. -/
def collisionPositions (raw : List RawEntry) : List AircraftPosition :=
  (raw.filter (fun d => !(d.callsign == "") && !d.on_ground)).map
    (fun d => ⟨d.callsign, d.latitude, d.longitude, d.altitude, d.velocity, d.heading⟩)

/-- pairScan models the double loop `for i ...; for j = i+1 ...` collecting
the non-null results of `f positions[i] positions[j]` in iteration order. -/
def pairScan {α β : Type} (f : α → α → Option β) : List α → List β
  | [] => []
  | p :: rest => rest.filterMap (f p) ++ pairScan f rest

/-- checkCollisionRisks models one cycle of
`CollisionDetectionService.checkCollisionRisks` (the returned alert list;
needs at least two position keys, else returns `[]`). -/
noncomputable def checkCollisionRisks (now : ℕ) (raw : List RawEntry) :
    List CollisionAlert :=
  if raw.length < 2 then []
  else pairScan (checkPairCollision now) (collisionPositions raw)

/-- CollStore models the Redis state owned by the collision detector:
`alert:collision:<id>` keyed entries (with their 300 s TTL kept abstract) and
the `alerts:collision:active` list (head = most recently pushed). -/
structure CollisionAlertStore where
  individual : List (String × CollisionAlert)
  active : List CollisionAlert

/-- storeAlert models `storeAlert(alert)`: a keyed `SET alert:collision:<id>`
plus `lPush` and `lTrim 0 99` on the active list. -/
def storeAlert (st : CollisionAlertStore) (a : CollisionAlert) : CollisionAlertStore :=
  { individual := ("alert:collision:" ++ a.id, a) :: st.individual
    active := (a :: st.active).take 100 }

/-- getActiveAlerts models `getActiveAlerts()`: `lRange 0 -1` of the active
list (the JSON round-trip is the identity in the model). -/
def getActiveAlerts (st : CollisionAlertStore) : List CollisionAlert := st.active

end CollisionDetectionService

namespace AltitudeCheckService

/-- MIN_SAFE_ALTITUDE_FT is the default altitude floor
(`MIN_SAFE_ALTITUDE_FT`, default '1000'). -/
def MIN_SAFE_ALTITUDE_FT : ℚ := 1000

/-- ZoneInfo models the result of `getAirportZoneInfo(latitude, longitude)`
(a Neo4j spatial lookup, treated as an oracle): nearest containing zone, or
nearest airport with `inZone = false`, or all-null on lookup failure. -/
structure ZoneInfo where
  inZone : Bool
  airportName : Option String
  airportCode : Option String
  zoneName : Option String
  distance : Option ℚ
deriving DecidableEq

/-- AircraftInfo models the `aircraftInfo` object pushed onto `allAircraft`
for every processed entry. -/
structure AircraftInfo where
  callsign : String
  altitude : ℚ
  latitude : ℚ
  longitude : ℚ
  velocity : ℚ
  heading : ℚ
  inAirportZone : Bool
  airportName : Option String
  zoneName : Option String
  distanceToAirport : Option ℚ
deriving DecidableEq

/-- AltitudeAlert models the altitude alert object (both the risk variant and
the informational SAFE variant). -/
structure AltitudeAlert where
  id : String
  callsign : String
  altitude : ℚ
  latitude : ℚ
  longitude : ℚ
  velocity : ℚ
  heading : ℚ
  severity : String
  message : String
  inAirportZone : Bool
  airportName : Option String
  zoneName : Option String
  distanceToAirport : Option ℚ
  timestamp : ℕ
deriving DecidableEq

/-- calculateSeverity models `calculateSeverity(altitude)`:
CRITICAL below 500 ft, HIGH below 750 ft, MEDIUM otherwise. -/
def calculateSeverity (altitude : ℚ) : String :=
  if altitude < 500 then "CRITICAL"
  else if altitude < 750 then "HIGH"
  else "MEDIUM"

/-- optStr renders an optional string the way JavaScript template literals
render `null`. -/
def optStr (o : Option String) : String := o.getD "null"

/-- mkOutsideAlert models the alert object built for a low aircraft that is
not inside any airport zone. -/
def mkOutsideAlert (now : ℕ) (e : RawEntry) (zi : ZoneInfo) : AltitudeAlert :=
  { id := e.callsign ++ "-" ++ toString now
    callsign := e.callsign
    altitude := e.altitude
    latitude := e.latitude
    longitude := e.longitude
    velocity := e.velocity
    heading := e.heading
    severity := calculateSeverity e.altitude
    message := "Aircraft flying below safe altitude outside airport zone"
    inAirportZone := false
    airportName := none
    zoneName := none
    distanceToAirport := zi.distance
    timestamp := now }

/-- mkSafeAlert models the informational alert object built for a low
aircraft inside an airport zone (severity SAFE; not persisted). -/
def mkSafeAlert (now : ℕ) (e : RawEntry) (zi : ZoneInfo) : AltitudeAlert :=
  { id := e.callsign ++ "-" ++ toString now
    callsign := e.callsign
    altitude := e.altitude
    latitude := e.latitude
    longitude := e.longitude
    velocity := e.velocity
    heading := e.heading
    severity := "SAFE"
    message := "Aircraft in " ++ optStr zi.airportName ++ " " ++ optStr zi.zoneName ++
      " - Normal operations"
    inAirportZone := true
    airportName := zi.airportName
    zoneName := zi.zoneName
    distanceToAirport := zi.distance
    timestamp := now }

/-- mkAircraftInfo models the `aircraftInfo` object built for every
non-grounded entry with a truthy callsign. -/
def mkAircraftInfo (e : RawEntry) (zi : ZoneInfo) : AircraftInfo :=
  { callsign := e.callsign
    altitude := e.altitude
    latitude := e.latitude
    longitude := e.longitude
    velocity := e.velocity
    heading := e.heading
    inAirportZone := zi.inZone
    airportName := zi.airportName
    zoneName := zi.zoneName
    distanceToAirport := zi.distance }

/-- AltStore models the Redis state owned by the altitude detector:
`alert:low-altitude:<id>` keyed entries and the `alerts:altitude:active`
bounded list. -/
structure AltitudeAlertStore where
  individual : List (String × AltitudeAlert)
  active : List AltitudeAlert

/-- storeAlert models `storeAlert(alert)`: a keyed
`SET alert:low-altitude:<id>` plus `lPush` and `lTrim 0 99`. -/
def storeAlert (st : AltitudeAlertStore) (a : AltitudeAlert) : AltitudeAlertStore :=
  { individual := ("alert:low-altitude:" ++ a.id, a) :: st.individual
    active := (a :: st.active).take 100 }

/-- validEntry is the guard
`!(!data || !data.callsign || data.on_ground === 'true')` of the loop in
`checkLowAltitudeAircraft`. -/
def validEntry (e : RawEntry) : Bool := !(e.callsign == "") && !e.on_ground

/-- processEntries models the main loop of `checkLowAltitudeAircraft` over
the snapshot: it returns the `lowAltitudeAlerts` list, the `allAircraft`
list, and the store state after the cycle's `storeAlert` calls. -/
def processEntries (zinfo : ℚ → ℚ → ZoneInfo) (now : ℕ) :
    List RawEntry → AltitudeAlertStore →
      List AltitudeAlert × List AircraftInfo × AltitudeAlertStore
  | [], st => ([], [], st)
  | e :: rest, st =>
    if validEntry e then
      if e.altitude < MIN_SAFE_ALTITUDE_FT then
        if (zinfo e.latitude e.longitude).inZone = false then
          let al := mkOutsideAlert now e (zinfo e.latitude e.longitude)
          let r := processEntries zinfo now rest (storeAlert st al)
          (al :: r.1, mkAircraftInfo e (zinfo e.latitude e.longitude) :: r.2.1, r.2.2)
        else
          let al := mkSafeAlert now e (zinfo e.latitude e.longitude)
          let r := processEntries zinfo now rest st
          (al :: r.1, mkAircraftInfo e (zinfo e.latitude e.longitude) :: r.2.1, r.2.2)
      else
        let r := processEntries zinfo now rest st
        (r.1, mkAircraftInfo e (zinfo e.latitude e.longitude) :: r.2.1, r.2.2)
    else
      processEntries zinfo now rest st

/-- AltCheckResult models the object returned by `checkLowAltitudeAircraft`. -/
structure AltCheckResult where
  alerts : List AltitudeAlert
  totalAircraft : ℕ
  monitoredAircraft : List AircraftInfo

/-- checkLowAltitudeAircraft models one cycle of
`AltitudeCheckService.checkLowAltitudeAircraft`, returning the result object
and the store state after the cycle. -/
def checkLowAltitudeAircraft (zinfo : ℚ → ℚ → ZoneInfo) (now : ℕ)
    (entries : List RawEntry) (st : AltitudeAlertStore) :
    AltCheckResult × AltitudeAlertStore :=
  let r := processEntries zinfo now entries st
  (⟨r.1, r.2.1.length, r.2.1⟩, r.2.2)

end AltitudeCheckService

namespace FlightMonitorService

/-- Schedule models a MongoDB `flight_schedules` document at the granularity
the monitor reads it: its flight number and its (possibly absent) `status`
field. -/
structure Schedule where
  flightNumber : String
  status : Option String
deriving DecidableEq

/-- statusOrD models the JavaScript fallback `s || d` for an optional string
(absent and empty strings are falsy). -/
def statusOrD (o : Option String) (d : String) : String :=
  match o with
  | none => d
  | some s => if s = "" then d else s

/-- determineStatus models `determineStatus(liveData, schedule)`. -/
def determineStatus (on_ground : Bool) (schedule : Option Schedule) : String :=
  if on_ground then "on_ground"
  else
    match schedule with
    | some s => statusOrD s.status "in_flight"
    | none => "in_flight"

/-- FlightView models the flight object assembled by `getLiveFlights` /
`getFlightDetails`; fields absent from the schedule-only variant are `none`. -/
structure FlightView where
  callsign : String
  position : Option (ℚ × ℚ × ℚ × ℚ × ℚ)
  on_ground : Option Bool
  gate : Option String
  terminal : Option String
  status : String
  schedule : Option Schedule
deriving DecidableEq

/-- truthyStr models JavaScript truthiness of a nullable string (used for
`gateInfo?.gate || null` and `g.occupiedBy` filters). -/
def truthyStr (o : Option String) : Bool :=
  match o with
  | some s => !(s == "")
  | none => false

/-- orNull models `x || null` on a nullable string. -/
def orNull (o : Option String) : Option String :=
  if truthyStr o then o else none

/-- mkLiveView models the flight object built from one live position entry
(gate/terminal from the Neo4j oracle, schedule from the MongoDB oracle,
which is queried with the trimmed callsign). -/
def mkLiveView (gates : String → Option (String × String))
    (schedules : String → Option Schedule) (d : RawEntry) : FlightView :=
  { callsign := d.callsign
    position := some (d.latitude, d.longitude, d.altitude, d.velocity, d.heading)
    on_ground := some d.on_ground
    gate := orNull ((gates d.callsign).map (fun g => g.1))
    terminal := orNull ((gates d.callsign).map (fun g => g.2))
    status := determineStatus d.on_ground (schedules d.callsign.trim)
    schedule := schedules d.callsign.trim }

/-- getLiveFlights models `getLiveFlights()`: every snapshot entry with a
truthy callsign becomes a flight view (grounded aircraft included). -/
def getLiveFlights (positions : List RawEntry)
    (gates : String → Option (String × String))
    (schedules : String → Option Schedule) : List FlightView :=
  positions.filterMap (fun d =>
    if d.callsign = "" then none else some (mkLiveView gates schedules d))

/-- getFlightDetails models `getFlightDetails(flightNumber)`: the Redis key
pattern `aircraft:<flightNumber>*:position` selects live entries whose
callsign starts with the query; `keys[0]` is the first such entry.  With no
live match it falls back to the schedule, and returns `none` (JS `null`)
when that is absent too. -/
def getFlightDetails (positions : List RawEntry)
    (gates : String → Option (String × String))
    (schedules : String → Option Schedule) (flightNumber : String) :
    Option FlightView :=
  match (positions.filter (fun p => p.callsign.startsWith flightNumber)).head? with
  | some d => some (mkLiveView gates schedules d)
  | none =>
    match schedules flightNumber.trim with
    | some s =>
      some
        { callsign := flightNumber
          position := none
          on_ground := none
          gate := none
          terminal := none
          status := statusOrD s.status "scheduled"
          schedule := some s }
    | none => none

/-- GateRecord models one row of the Neo4j gate query in `getGateStatus`
(`occupiedBy` is null when no flight is assigned to the gate). -/
structure GateRecord where
  gate : String
  terminal : String
  status : Option String
  occupiedBy : Option String
  capacity : Option ℤ
deriving DecidableEq

/-- GateView models the object `getGateStatus` maps each row to. -/
structure GateView where
  gate : String
  terminal : String
  status : String
  occupiedBy : Option String
  capacity : Option ℤ
deriving DecidableEq

/-- getGateStatus models `getGateStatus()` over the query rows. -/
def getGateStatus (rows : List GateRecord) : List GateView :=
  rows.map (fun r =>
    ⟨r.gate, r.terminal, statusOrD r.status "available", r.occupiedBy, r.capacity⟩)

/-- truthyB models JavaScript truthiness of a possibly-absent Boolean. -/
def truthyB (o : Option Bool) : Bool := o.getD false

/-- Summary models the object returned by `getSummary()`. -/
structure Summary where
  totalFlights : ℕ
  inFlight : ℕ
  onGround : ℕ
  totalGates : ℕ
  occupiedGates : ℕ
  availableGates : ℕ
  timestamp : ℕ
deriving DecidableEq

/-- getSummary models `getSummary()`: counts over the live flight list and
the gate list. -/
def getSummary (now : ℕ) (positions : List RawEntry)
    (gates : String → Option (String × String))
    (schedules : String → Option Schedule) (rows : List GateRecord) : Summary :=
  let flights := getLiveFlights positions gates schedules
  let gateList := getGateStatus rows
  { totalFlights := flights.length
    inFlight := (flights.filter (fun f => !truthyB f.on_ground)).length
    onGround := (flights.filter (fun f => truthyB f.on_ground)).length
    totalGates := gateList.length
    occupiedGates := (gateList.filter (fun g => truthyStr g.occupiedBy)).length
    availableGates := (gateList.filter (fun g => !truthyStr g.occupiedBy)).length
    timestamp := now }

end FlightMonitorService

section ListHelpers

/-- take_append_take is the list identity behind composing `lPush` + `lTrim`
steps: an inner trim under an append can be dropped. -/
theorem take_append_take {α : Type} (n : ℕ) (l m : List α) :
    List.take n (l ++ List.take n m) = List.take n (l ++ m) := by
  rw [List.take_append_eq_append_take, List.take_append_eq_append_take, List.take_take,
    min_eq_left (Nat.sub_le n l.length)]

/-- length_filter_add_length_filter_not: a Boolean predicate partitions a
list, so the two filtered lengths add up to the total length. -/
theorem length_filter_add_length_filter_not {α : Type} (p : α → Bool) (l : List α) :
    (l.filter p).length + (l.filter (fun a => !p a)).length = l.length := by
  induction l with
  | nil => rfl
  | cons a l ih =>
    simp only [List.filter_cons]
    cases hb : p a <;> simp [hb] <;> omega

end ListHelpers

namespace CollisionDetectionService

/-- foldl_storeAlert_active: after at least one `storeAlert`, the active list
is the trim of all pushed alerts (most recent first) in front of the previous
active list. -/
theorem foldl_storeAlert_active (as : List CollisionAlert) :
    ∀ st : CollisionAlertStore, as ≠ [] →
      (as.foldl storeAlert st).active = (as.reverse ++ st.active).take 100 := by
  induction as with
  | nil => intro st h; exact absurd rfl h
  | cons a as ih =>
    intro st _
    by_cases h : as = []
    · subst h
      simp [storeAlert]
    · rw [List.foldl_cons, ih (storeAlert st a) h, List.reverse_cons, List.append_assoc]
      show (as.reverse ++ ((a :: st.active).take 100)).take 100 = _
      rw [take_append_take]
      rfl

end CollisionDetectionService

/-- C7: the per-category active alert list is push-front and trimmed to 100:
after more than 100 insertions through `storeAlert`, `getActiveAlerts`
returns exactly the 100 most recently inserted alerts, most recent first
(insertion order, no timestamp re-sorting). -/
theorem collision_active_list_cap (st : CollisionDetectionService.CollisionAlertStore)
    (as : List CollisionDetectionService.CollisionAlert) (h : 100 < as.length) :
    CollisionDetectionService.getActiveAlerts
        (as.foldl CollisionDetectionService.storeAlert st) = as.reverse.take 100 := by
  have hne : as ≠ [] := by
    intro e
    subst e
    simp at h
  rw [CollisionDetectionService.getActiveAlerts,
    CollisionDetectionService.foldl_storeAlert_active as st hne,
    List.take_append_eq_append_take]
  have hlen : 100 ≤ as.reverse.length := by
    simpa using Nat.le_of_lt h
  rw [Nat.sub_eq_zero_of_le hlen, List.take_zero, List.append_nil]

/-- mkNumberedAlert builds a distinct dummy collision alert for each index
(used to exercise the bounded active list on a concrete run). -/
def mkNumberedAlert (i : ℕ) : CollisionDetectionService.CollisionAlert :=
  ⟨toString i, "A", "B", 0, 0, "MEDIUM", (0, 0, 0), (0, 0, 0), i⟩

/-- Witness for C7: 101 concrete insertions into an empty store keep exactly
the 100 most recent alerts. -/
theorem collision_active_list_cap_witness :
    CollisionDetectionService.getActiveAlerts
        (((List.range 101).map mkNumberedAlert).foldl
          CollisionDetectionService.storeAlert ⟨[], []⟩) =
      ((List.range 101).map mkNumberedAlert).reverse.take 100 :=
  collision_active_list_cap ⟨[], []⟩ _ (by simp)

namespace AltitudeCheckService

/-- lowEntry is the combined guard of the alert branch: the entry is
processed (valid callsign, airborne) and below the altitude floor. -/
def lowEntry (e : RawEntry) : Bool :=
  validEntry e && decide (e.altitude < MIN_SAFE_ALTITUDE_FT)

/-- mkLowAlert dispatches between the in-zone (SAFE) and outside-zone alert
shapes, exactly as the inner branch of `checkLowAltitudeAircraft` does. -/
def mkLowAlert (zinfo : ℚ → ℚ → ZoneInfo) (now : ℕ) (e : RawEntry) : AltitudeAlert :=
  if (zinfo e.latitude e.longitude).inZone then mkSafeAlert now e (zinfo e.latitude e.longitude)
  else mkOutsideAlert now e (zinfo e.latitude e.longitude)

/-- mkLowAlert_callsign: both alert shapes carry the entry's callsign. -/
theorem mkLowAlert_callsign (zinfo : ℚ → ℚ → ZoneInfo) (now : ℕ) (e : RawEntry) :
    (mkLowAlert zinfo now e).callsign = e.callsign := by
  unfold mkLowAlert mkSafeAlert mkOutsideAlert
  split <;> rfl

/-- calculateSeverity_ne_safe: the risk severity ladder never yields SAFE. -/
theorem calculateSeverity_ne_safe (q : ℚ) : calculateSeverity q ≠ "SAFE" := by
  unfold calculateSeverity
  split_ifs <;> decide

/-- processEntries_alerts: the alert list of a cycle is exactly the image of
the low, valid entries under `mkLowAlert`, independent of the store state. -/
theorem processEntries_alerts (zinfo : ℚ → ℚ → ZoneInfo) (now : ℕ) (l : List RawEntry) :
    ∀ st : AltitudeAlertStore,
      (processEntries zinfo now l st).1 = (l.filter lowEntry).map (mkLowAlert zinfo now) := by
  induction l with
  | nil => intro st; rfl
  | cons e rest ih =>
    intro st
    by_cases hv : validEntry e
    · by_cases ha : e.altitude < MIN_SAFE_ALTITUDE_FT
      · by_cases hz : (zinfo e.latitude e.longitude).inZone = false
        · simp [processEntries, hv, ha, hz, lowEntry, mkLowAlert, List.filter_cons, ih]
        · have hz2 : (zinfo e.latitude e.longitude).inZone = true := by
            revert hz
            cases (zinfo e.latitude e.longitude).inZone <;> simp
          simp [processEntries, hv, ha, hz2, lowEntry, mkLowAlert, List.filter_cons, ih]
      · simp [processEntries, hv, ha, lowEntry, List.filter_cons, ih]
    · simp [processEntries, hv, lowEntry, List.filter_cons, ih]

/-- processEntries_monitored: the monitored snapshot is exactly the image of
the valid entries, regardless of altitude and zone. -/
theorem processEntries_monitored (zinfo : ℚ → ℚ → ZoneInfo) (now : ℕ) (l : List RawEntry) :
    ∀ st : AltitudeAlertStore,
      (processEntries zinfo now l st).2.1 =
        (l.filter validEntry).map (fun e => mkAircraftInfo e (zinfo e.latitude e.longitude)) := by
  induction l with
  | nil => intro st; rfl
  | cons e rest ih =>
    intro st
    by_cases hv : validEntry e
    · by_cases ha : e.altitude < MIN_SAFE_ALTITUDE_FT
      · by_cases hz : (zinfo e.latitude e.longitude).inZone = false
        · simp [processEntries, hv, ha, hz, List.filter_cons, ih]
        · have hz2 : (zinfo e.latitude e.longitude).inZone = true := by
            revert hz
            cases (zinfo e.latitude e.longitude).inZone <;> simp
          simp [processEntries, hv, ha, hz2, List.filter_cons, ih]
      · simp [processEntries, hv, ha, List.filter_cons, ih]
    · simp [processEntries, hv, List.filter_cons, ih]

/-- processEntries_individual: the keyed expiring entries written during a
cycle are exactly the non-SAFE alerts of the cycle (most recent first), in
front of the previous store contents. -/
theorem processEntries_individual (zinfo : ℚ → ℚ → ZoneInfo) (now : ℕ) (l : List RawEntry) :
    ∀ st : AltitudeAlertStore,
      (processEntries zinfo now l st).2.2.individual =
        (((processEntries zinfo now l st).1.filter
            (fun a => !(a.severity == "SAFE"))).map
          (fun a => ("alert:low-altitude:" ++ a.id, a))).reverse ++ st.individual := by
  induction l with
  | nil => intro st; rfl
  | cons e rest ih =>
    intro st
    by_cases hv : validEntry e
    · by_cases ha : e.altitude < MIN_SAFE_ALTITUDE_FT
      · by_cases hz : (zinfo e.latitude e.longitude).inZone = false
        · have hsev : (mkOutsideAlert now e (zinfo e.latitude e.longitude)).severity ≠ "SAFE" := by
            simpa [mkOutsideAlert] using calculateSeverity_ne_safe e.altitude
          simp [processEntries, hv, ha, hz, List.filter_cons, hsev, ih, storeAlert,
            List.append_assoc]
        · have hz2 : (zinfo e.latitude e.longitude).inZone = true := by
            revert hz
            cases (zinfo e.latitude e.longitude).inZone <;> simp
          simp [processEntries, hv, ha, hz2, List.filter_cons, mkSafeAlert, ih]
      · simp [processEntries, hv, ha, ih]
    · simp [processEntries, hv, ih]

end AltitudeCheckService

section KeyedFilter

variable {α β : Type}

/-- filter_map_filter_key: in a list whose keys are pairwise distinct, the
alerts generated from an entry `e` by a filter-then-map pipeline are exactly
one (when `e` passes the filter) or none (when it does not), where the
mapping preserves keys. -/
theorem filter_map_filter_key (key : β → String) (f : α → β) (ks : α → String)
    (hks : ∀ x, key (f x) = ks x) (p : α → Bool) :
    ∀ l : List α, (l.map ks).Nodup → ∀ e ∈ l,
      (p e = true → ((l.filter p).map f).filter (fun b => key b == ks e) = [f e]) ∧
      (p e = false → ((l.filter p).map f).filter (fun b => key b == ks e) = []) := by
  intro l
  induction l with
  | nil => intro _ e he; cases he
  | cons x rest ih =>
    intro hnd e he
    have hx : ks x ∉ rest.map ks := by
      have := hnd
      rw [List.map_cons, List.nodup_cons] at this
      exact this.1
    have hnd2 : (rest.map ks).Nodup := by
      have := hnd
      rw [List.map_cons, List.nodup_cons] at this
      exact this.2
    have tail_nil : ∀ q : α → Bool,
        ((rest.filter q).map f).filter (fun b => key b == ks x) = [] := by
      intro q
      rw [List.filter_eq_nil_iff]
      intro b hb
      rcases List.mem_map.mp hb with ⟨y, hy, rfl⟩
      have hyr : y ∈ rest := List.mem_of_mem_filter hy
      rw [hks y]
      simp only [beq_iff_eq]
      intro hksy
      exact hx (hksy ▸ List.mem_map_of_mem ks hyr)
    rcases List.mem_cons.mp he with rfl | her
    · constructor
      · intro hp
        rw [List.filter_cons_of_pos hp, List.map_cons, List.filter_cons_of_pos
          (by rw [hks e]; simp), tail_nil]
      · intro hp
        rw [List.filter_cons_of_neg (by simp [hp]), tail_nil]
    · have hne : ks x ≠ ks e := by
        intro hkk
        exact hx (hkk ▸ List.mem_map_of_mem ks her)
      have step : ((rest.filter p).map f).filter (fun b => key b == ks e) =
          (((x :: rest).filter p).map f).filter (fun b => key b == ks e) := by
        by_cases hpx : p x = true
        · rw [List.filter_cons_of_pos hpx, List.map_cons, List.filter_cons_of_neg
            (by rw [hks x]; simp [hne])]
        · rw [List.filter_cons_of_neg (by simp [hpx])]
      constructor
      · intro hp
        rw [← step]
        exact ((ih hnd2 e her).1 hp)
      · intro hp
        rw [← step]
        exact ((ih hnd2 e her).2 hp)

end KeyedFilter

open AltitudeCheckService in
/-- C3: every airborne snapshot entry with a truthy callsign, altitude below
MIN_SAFE_ALTITUDE_FT, and not inside any airport zone produces exactly one
altitude alert in that cycle, with severity CRITICAL below 500 ft, HIGH from
500 ft up to 750 ft, MEDIUM otherwise, a message containing "below safe
altitude outside airport zone", and the alert is stored under its expiring
per-alert key. -/
theorem altitude_outside_zone_alert (zinfo : ℚ → ℚ → ZoneInfo) (now : ℕ)
    (entries : List RawEntry) (st : AltitudeAlertStore) (e : RawEntry)
    (hnd : (entries.map (fun d => d.callsign)).Nodup) (he : e ∈ entries)
    (hcs : e.callsign ≠ "") (hg : e.on_ground = false)
    (hlow : e.altitude < MIN_SAFE_ALTITUDE_FT)
    (hz : (zinfo e.latitude e.longitude).inZone = false) :
    ((checkLowAltitudeAircraft zinfo now entries st).1.alerts.filter
        (fun a => a.callsign == e.callsign)) =
      [mkOutsideAlert now e (zinfo e.latitude e.longitude)] ∧
    (e.altitude < 500 →
      (mkOutsideAlert now e (zinfo e.latitude e.longitude)).severity = "CRITICAL") ∧
    (500 ≤ e.altitude → e.altitude < 750 →
      (mkOutsideAlert now e (zinfo e.latitude e.longitude)).severity = "HIGH") ∧
    (750 ≤ e.altitude →
      (mkOutsideAlert now e (zinfo e.latitude e.longitude)).severity = "MEDIUM") ∧
    (∃ pre post, (mkOutsideAlert now e (zinfo e.latitude e.longitude)).message =
      pre ++ "below safe altitude outside airport zone" ++ post) ∧
    ("alert:low-altitude:" ++ (mkOutsideAlert now e (zinfo e.latitude e.longitude)).id,
        mkOutsideAlert now e (zinfo e.latitude e.longitude)) ∈
      (checkLowAltitudeAircraft zinfo now entries st).2.individual := by
  have hvalid : validEntry e = true := by
    simp [validEntry, hcs, hg]
  have hlowb : lowEntry e = true := by
    simp [lowEntry, hvalid, hlow]
  have hmk : mkLowAlert zinfo now e = mkOutsideAlert now e (zinfo e.latitude e.longitude) := by
    simp [mkLowAlert, hz]
  have halerts : (checkLowAltitudeAircraft zinfo now entries st).1.alerts =
      (entries.filter lowEntry).map (mkLowAlert zinfo now) := by
    simp [checkLowAltitudeAircraft, processEntries_alerts]
  have hkey := (filter_map_filter_key (fun a => a.callsign) (mkLowAlert zinfo now)
      (fun d => d.callsign) (mkLowAlert_callsign zinfo now) lowEntry entries hnd e he).1 hlowb
  refine ⟨?_, ?_, ?_, ?_, ?_, ?_⟩
  · rw [halerts, hkey, hmk]
  · intro h
    simp [mkOutsideAlert, calculateSeverity, h]
  · intro h1 h2
    simp [mkOutsideAlert, calculateSeverity, not_lt.mpr h1, h2]
  · intro h1
    simp [mkOutsideAlert, calculateSeverity, not_lt.mpr h1,
      not_lt.mpr (le_trans (by norm_num : (500 : ℚ) ≤ 750) h1)]
  · exact ⟨"Aircraft flying ", "", rfl⟩
  · have hmem : mkOutsideAlert now e (zinfo e.latitude e.longitude) ∈
        ((processEntries zinfo now entries st).1.filter
          (fun a => !(a.severity == "SAFE"))) := by
      rw [processEntries_alerts]
      refine List.mem_filter.mpr ⟨?_, ?_⟩
      · rw [← hmk]
        exact List.mem_map_of_mem _ (List.mem_filter.mpr ⟨he, hlowb⟩)
      · simp [mkOutsideAlert, calculateSeverity_ne_safe]
    have hpair : ("alert:low-altitude:" ++
          (mkOutsideAlert now e (zinfo e.latitude e.longitude)).id,
        mkOutsideAlert now e (zinfo e.latitude e.longitude)) ∈
        (((processEntries zinfo now entries st).1.filter
            (fun a => !(a.severity == "SAFE"))).map
          (fun a => ("alert:low-altitude:" ++ a.id, a))).reverse := by
      rw [List.mem_reverse]
      exact List.mem_map_of_mem _ hmem
    show _ ∈ (processEntries zinfo now entries st).2.2.individual
    rw [processEntries_individual]
    exact List.mem_append.mpr (Or.inl hpair)

/-- zinfoOutside is a zone oracle placing every point outside all zones, with
a nearest-airport fallback result. -/
def zinfoOutside : ℚ → ℚ → AltitudeCheckService.ZoneInfo :=
  fun _ _ => ⟨false, some "Frankfurt Airport", some "FRA", none, some 12⟩

/-- entryLow450 is a concrete airborne entry at 450 ft. -/
def entryLow450 : RawEntry := ⟨"DLH123", 50.25, 8.75, 450, 120, 90, false⟩

open AltitudeCheckService in
/-- Witness for C3: one concrete aircraft at 450 ft outside every zone gets
exactly one CRITICAL alert with the required message, stored under its key. -/
theorem altitude_outside_zone_alert_witness :
    ((checkLowAltitudeAircraft zinfoOutside 5 [entryLow450] ⟨[], []⟩).1.alerts.filter
        (fun a => a.callsign == entryLow450.callsign)) =
      [mkOutsideAlert 5 entryLow450 (zinfoOutside entryLow450.latitude entryLow450.longitude)] ∧
    (entryLow450.altitude < 500 →
      (mkOutsideAlert 5 entryLow450
        (zinfoOutside entryLow450.latitude entryLow450.longitude)).severity = "CRITICAL") ∧
    (500 ≤ entryLow450.altitude → entryLow450.altitude < 750 →
      (mkOutsideAlert 5 entryLow450
        (zinfoOutside entryLow450.latitude entryLow450.longitude)).severity = "HIGH") ∧
    (750 ≤ entryLow450.altitude →
      (mkOutsideAlert 5 entryLow450
        (zinfoOutside entryLow450.latitude entryLow450.longitude)).severity = "MEDIUM") ∧
    (∃ pre post, (mkOutsideAlert 5 entryLow450
        (zinfoOutside entryLow450.latitude entryLow450.longitude)).message =
      pre ++ "below safe altitude outside airport zone" ++ post) ∧
    ("alert:low-altitude:" ++ (mkOutsideAlert 5 entryLow450
          (zinfoOutside entryLow450.latitude entryLow450.longitude)).id,
        mkOutsideAlert 5 entryLow450
          (zinfoOutside entryLow450.latitude entryLow450.longitude)) ∈
      (checkLowAltitudeAircraft zinfoOutside 5 [entryLow450] ⟨[], []⟩).2.individual :=
  altitude_outside_zone_alert zinfoOutside 5 [entryLow450] ⟨[], []⟩ entryLow450
    (by decide) (List.mem_singleton.mpr rfl) (by decide) (by decide) (by decide) (by decide)

open AltitudeCheckService in
/-- C4: an airborne low-altitude entry inside an airport zone yields exactly
one returned entry with severity "SAFE" carrying the zone and airport names,
and SAFE entries never reach the per-alert expiring store: every key written
during the cycle belongs to a non-SAFE alert. -/
theorem altitude_safe_zone_no_store (zinfo : ℚ → ℚ → ZoneInfo) (now : ℕ)
    (entries : List RawEntry) (st : AltitudeAlertStore) (e : RawEntry)
    (hnd : (entries.map (fun d => d.callsign)).Nodup) (he : e ∈ entries)
    (hcs : e.callsign ≠ "") (hg : e.on_ground = false)
    (hlow : e.altitude < MIN_SAFE_ALTITUDE_FT)
    (hz : (zinfo e.latitude e.longitude).inZone = true) :
    ((checkLowAltitudeAircraft zinfo now entries st).1.alerts.filter
        (fun a => a.callsign == e.callsign)) =
      [mkSafeAlert now e (zinfo e.latitude e.longitude)] ∧
    (mkSafeAlert now e (zinfo e.latitude e.longitude)).severity = "SAFE" ∧
    (mkSafeAlert now e (zinfo e.latitude e.longitude)).airportName =
      (zinfo e.latitude e.longitude).airportName ∧
    (mkSafeAlert now e (zinfo e.latitude e.longitude)).zoneName =
      (zinfo e.latitude e.longitude).zoneName ∧
    (∀ k al, (k, al) ∈ (checkLowAltitudeAircraft zinfo now entries st).2.individual →
      (k, al) ∉ st.individual → al.severity ≠ "SAFE") := by
  have hvalid : validEntry e = true := by
    simp [validEntry, hcs, hg]
  have hlowb : lowEntry e = true := by
    simp [lowEntry, hvalid, hlow]
  have hmk : mkLowAlert zinfo now e = mkSafeAlert now e (zinfo e.latitude e.longitude) := by
    simp [mkLowAlert, hz]
  have halerts : (checkLowAltitudeAircraft zinfo now entries st).1.alerts =
      (entries.filter lowEntry).map (mkLowAlert zinfo now) := by
    simp [checkLowAltitudeAircraft, processEntries_alerts]
  have hkey := (filter_map_filter_key (fun a => a.callsign) (mkLowAlert zinfo now)
      (fun d => d.callsign) (mkLowAlert_callsign zinfo now) lowEntry entries hnd e he).1 hlowb
  refine ⟨?_, rfl, rfl, rfl, ?_⟩
  · rw [halerts, hkey, hmk]
  · intro k al hmem hnotold
    have hind := processEntries_individual zinfo now entries st
    have hmem2 : (k, al) ∈ (processEntries zinfo now entries st).2.2.individual := hmem
    rw [hind] at hmem2
    rcases List.mem_append.mp hmem2 with hnew | hold
    · rw [List.mem_reverse] at hnew
      rcases List.mem_map.mp hnew with ⟨a, ha, heq⟩
      have hal : al = a := congrArg Prod.snd heq.symm
      subst hal
      have := (List.mem_filter.mp ha).2
      simp only [Bool.not_eq_true', beq_eq_false_iff_ne, ne_eq] at this
      exact this
    · exact absurd hold hnotold

/-- zinfoInside is a zone oracle placing every point inside a concrete
approach zone. -/
def zinfoInside : ℚ → ℚ → AltitudeCheckService.ZoneInfo :=
  fun _ _ => ⟨true, some "Frankfurt Airport", some "FRA", some "Approach Zone", some 2⟩

/-- entryLow800 is a concrete airborne entry at 800 ft. -/
def entryLow800 : RawEntry := ⟨"DLH456", 50.05, 8.57, 800, 140, 70, false⟩

open AltitudeCheckService in
/-- Witness for C4: one concrete aircraft at 800 ft inside a zone yields a
single SAFE entry with the zone names and writes nothing SAFE to the keyed
store. -/
theorem altitude_safe_zone_no_store_witness :
    ((checkLowAltitudeAircraft zinfoInside 9 [entryLow800] ⟨[], []⟩).1.alerts.filter
        (fun a => a.callsign == entryLow800.callsign)) =
      [mkSafeAlert 9 entryLow800 (zinfoInside entryLow800.latitude entryLow800.longitude)] ∧
    (mkSafeAlert 9 entryLow800
        (zinfoInside entryLow800.latitude entryLow800.longitude)).severity = "SAFE" ∧
    (mkSafeAlert 9 entryLow800
        (zinfoInside entryLow800.latitude entryLow800.longitude)).airportName =
      (zinfoInside entryLow800.latitude entryLow800.longitude).airportName ∧
    (mkSafeAlert 9 entryLow800
        (zinfoInside entryLow800.latitude entryLow800.longitude)).zoneName =
      (zinfoInside entryLow800.latitude entryLow800.longitude).zoneName ∧
    (∀ k al, (k, al) ∈
        (checkLowAltitudeAircraft zinfoInside 9 [entryLow800] ⟨[], []⟩).2.individual →
      (k, al) ∉ (⟨[], []⟩ : AltitudeAlertStore).individual → al.severity ≠ "SAFE") :=
  altitude_safe_zone_no_store zinfoInside 9 [entryLow800] ⟨[], []⟩ entryLow800
    (by decide) (List.mem_singleton.mpr rfl) (by decide) (by decide) (by decide) (by decide)

open AltitudeCheckService in
/-- C6: every airborne snapshot entry with a truthy callsign appears in the
returned monitoredAircraft snapshot with its zone-membership information,
regardless of altitude; at or above the altitude floor no alert is generated
for it. -/
theorem altitude_monitored_snapshot (zinfo : ℚ → ℚ → ZoneInfo) (now : ℕ)
    (entries : List RawEntry) (st : AltitudeAlertStore) (e : RawEntry)
    (hnd : (entries.map (fun d => d.callsign)).Nodup) (he : e ∈ entries)
    (hcs : e.callsign ≠ "") (hg : e.on_ground = false) :
    mkAircraftInfo e (zinfo e.latitude e.longitude) ∈
      (checkLowAltitudeAircraft zinfo now entries st).1.monitoredAircraft ∧
    (mkAircraftInfo e (zinfo e.latitude e.longitude)).callsign = e.callsign ∧
    (mkAircraftInfo e (zinfo e.latitude e.longitude)).inAirportZone =
      (zinfo e.latitude e.longitude).inZone ∧
    (mkAircraftInfo e (zinfo e.latitude e.longitude)).airportName =
      (zinfo e.latitude e.longitude).airportName ∧
    (mkAircraftInfo e (zinfo e.latitude e.longitude)).zoneName =
      (zinfo e.latitude e.longitude).zoneName ∧
    (mkAircraftInfo e (zinfo e.latitude e.longitude)).distanceToAirport =
      (zinfo e.latitude e.longitude).distance ∧
    (MIN_SAFE_ALTITUDE_FT ≤ e.altitude →
      ((checkLowAltitudeAircraft zinfo now entries st).1.alerts.filter
        (fun a => a.callsign == e.callsign)) = []) := by
  have hvalid : validEntry e = true := by
    simp [validEntry, hcs, hg]
  have hmon : (checkLowAltitudeAircraft zinfo now entries st).1.monitoredAircraft =
      (entries.filter validEntry).map
        (fun d => mkAircraftInfo d (zinfo d.latitude d.longitude)) := by
    simp [checkLowAltitudeAircraft, processEntries_monitored]
  refine ⟨?_, rfl, rfl, rfl, rfl, rfl, ?_⟩
  · rw [hmon]
    exact List.mem_map_of_mem _ (List.mem_filter.mpr ⟨he, hvalid⟩)
  · intro hge
    have hlowb : lowEntry e = false := by
      simp [lowEntry, hvalid, not_lt.mpr hge]
    have halerts : (checkLowAltitudeAircraft zinfo now entries st).1.alerts =
        (entries.filter lowEntry).map (mkLowAlert zinfo now) := by
      simp [checkLowAltitudeAircraft, processEntries_alerts]
    rw [halerts]
    exact (filter_map_filter_key (fun a => a.callsign) (mkLowAlert zinfo now)
      (fun d => d.callsign) (mkLowAlert_callsign zinfo now) lowEntry entries hnd e he).2 hlowb

/-- entryHigh25000 is a concrete airborne entry at cruise altitude. -/
def entryHigh25000 : RawEntry := ⟨"BAW77", 51.5, 0.1, 25000, 430, 180, false⟩

open AltitudeCheckService in
/-- Witness for C6: a concrete aircraft at 25000 ft appears in the monitored
snapshot with its zone information and generates no alert. -/
theorem altitude_monitored_snapshot_witness :
    mkAircraftInfo entryHigh25000
        (zinfoOutside entryHigh25000.latitude entryHigh25000.longitude) ∈
      (checkLowAltitudeAircraft zinfoOutside 3 [entryHigh25000] ⟨[], []⟩).1.monitoredAircraft ∧
    (mkAircraftInfo entryHigh25000
        (zinfoOutside entryHigh25000.latitude entryHigh25000.longitude)).callsign =
      entryHigh25000.callsign ∧
    (mkAircraftInfo entryHigh25000
        (zinfoOutside entryHigh25000.latitude entryHigh25000.longitude)).inAirportZone =
      (zinfoOutside entryHigh25000.latitude entryHigh25000.longitude).inZone ∧
    (mkAircraftInfo entryHigh25000
        (zinfoOutside entryHigh25000.latitude entryHigh25000.longitude)).airportName =
      (zinfoOutside entryHigh25000.latitude entryHigh25000.longitude).airportName ∧
    (mkAircraftInfo entryHigh25000
        (zinfoOutside entryHigh25000.latitude entryHigh25000.longitude)).zoneName =
      (zinfoOutside entryHigh25000.latitude entryHigh25000.longitude).zoneName ∧
    (mkAircraftInfo entryHigh25000
        (zinfoOutside entryHigh25000.latitude entryHigh25000.longitude)).distanceToAirport =
      (zinfoOutside entryHigh25000.latitude entryHigh25000.longitude).distance ∧
    (MIN_SAFE_ALTITUDE_FT ≤ entryHigh25000.altitude →
      ((checkLowAltitudeAircraft zinfoOutside 3 [entryHigh25000] ⟨[], []⟩).1.alerts.filter
        (fun a => a.callsign == entryHigh25000.callsign)) = []) :=
  altitude_monitored_snapshot zinfoOutside 3 [entryHigh25000] ⟨[], []⟩ entryHigh25000
    (by decide) (List.mem_singleton.mpr rfl) (by decide) (by decide)

open FlightMonitorService in
/-- C10: getSummary partitions its totals exactly: inFlight + onGround equals
totalFlights, and occupiedGates + availableGates equals totalGates; when no
gate carries an empty occupant callsign, the occupied count is exactly the
number of gate rows with an occupying flight. -/
theorem summary_partition (now : ℕ) (positions : List RawEntry)
    (gates : String → Option (String × String))
    (schedules : String → Option Schedule) (rows : List GateRecord)
    (hocc : ∀ r ∈ rows, r.occupiedBy ≠ some "") :
    (getSummary now positions gates schedules rows).inFlight +
        (getSummary now positions gates schedules rows).onGround =
      (getSummary now positions gates schedules rows).totalFlights ∧
    (getSummary now positions gates schedules rows).occupiedGates +
        (getSummary now positions gates schedules rows).availableGates =
      (getSummary now positions gates schedules rows).totalGates ∧
    (getSummary now positions gates schedules rows).occupiedGates =
      (rows.filter (fun r => r.occupiedBy.isSome)).length := by
  refine ⟨?_, ?_, ?_⟩
  · simp only [getSummary]
    have := length_filter_add_length_filter_not
      (fun f => truthyB f.on_ground) (getLiveFlights positions gates schedules)
    omega
  · simp only [getSummary]
    have := length_filter_add_length_filter_not
      (fun g => truthyStr g.occupiedBy) (getGateStatus rows)
    omega
  · simp only [getSummary, getGateStatus]
    rw [List.filter_map, List.length_map]
    apply congrArg List.length
    apply List.filter_congr
    intro r hr
    cases ho : r.occupiedBy with
    | none => simp [truthyStr, Function.comp, ho]
    | some s =>
      have hs : s ≠ "" := by
        intro hempty
        exact hocc r hr (by rw [ho, hempty])
      simp [truthyStr, Function.comp, ho, hs]

open FlightMonitorService in
/-- Witness for C10 with a concrete fleet of two flights (one airborne, one
grounded) and two gates (one occupied, one free). -/
theorem summary_partition_witness :
    (getSummary 1
          [⟨"DLH1", 50.1, 8.6, 30000, 400, 90, false⟩,
            ⟨"DLH2", 50.0, 8.5, 0, 0, 0, true⟩]
          (fun _ => none) (fun _ => none)
          [⟨"A1", "T1", some "occupied", some "DLH2", some 1⟩,
            ⟨"A2", "T1", none, none, none⟩]).inFlight +
        (getSummary 1
          [⟨"DLH1", 50.1, 8.6, 30000, 400, 90, false⟩,
            ⟨"DLH2", 50.0, 8.5, 0, 0, 0, true⟩]
          (fun _ => none) (fun _ => none)
          [⟨"A1", "T1", some "occupied", some "DLH2", some 1⟩,
            ⟨"A2", "T1", none, none, none⟩]).onGround =
      (getSummary 1
          [⟨"DLH1", 50.1, 8.6, 30000, 400, 90, false⟩,
            ⟨"DLH2", 50.0, 8.5, 0, 0, 0, true⟩]
          (fun _ => none) (fun _ => none)
          [⟨"A1", "T1", some "occupied", some "DLH2", some 1⟩,
            ⟨"A2", "T1", none, none, none⟩]).totalFlights ∧
    (getSummary 1
          [⟨"DLH1", 50.1, 8.6, 30000, 400, 90, false⟩,
            ⟨"DLH2", 50.0, 8.5, 0, 0, 0, true⟩]
          (fun _ => none) (fun _ => none)
          [⟨"A1", "T1", some "occupied", some "DLH2", some 1⟩,
            ⟨"A2", "T1", none, none, none⟩]).occupiedGates +
        (getSummary 1
          [⟨"DLH1", 50.1, 8.6, 30000, 400, 90, false⟩,
            ⟨"DLH2", 50.0, 8.5, 0, 0, 0, true⟩]
          (fun _ => none) (fun _ => none)
          [⟨"A1", "T1", some "occupied", some "DLH2", some 1⟩,
            ⟨"A2", "T1", none, none, none⟩]).availableGates =
      (getSummary 1
          [⟨"DLH1", 50.1, 8.6, 30000, 400, 90, false⟩,
            ⟨"DLH2", 50.0, 8.5, 0, 0, 0, true⟩]
          (fun _ => none) (fun _ => none)
          [⟨"A1", "T1", some "occupied", some "DLH2", some 1⟩,
            ⟨"A2", "T1", none, none, none⟩]).totalGates ∧
    (getSummary 1
          [⟨"DLH1", 50.1, 8.6, 30000, 400, 90, false⟩,
            ⟨"DLH2", 50.0, 8.5, 0, 0, 0, true⟩]
          (fun _ => none) (fun _ => none)
          [⟨"A1", "T1", some "occupied", some "DLH2", some 1⟩,
            ⟨"A2", "T1", none, none, none⟩]).occupiedGates =
      (([⟨"A1", "T1", some "occupied", some "DLH2", some 1⟩,
          ⟨"A2", "T1", none, none, none⟩] : List GateRecord).filter
        (fun r => r.occupiedBy.isSome)).length :=
  summary_partition 1
    [⟨"DLH1", 50.1, 8.6, 30000, 400, 90, false⟩, ⟨"DLH2", 50.0, 8.5, 0, 0, 0, true⟩]
    (fun _ => none) (fun _ => none)
    [⟨"A1", "T1", some "occupied", some "DLH2", some 1⟩, ⟨"A2", "T1", none, none, none⟩]
    (by decide)

/-- delayedSchedules is a schedule oracle under which every lookup (in
particular LH123) finds a stored schedule whose status field is "delayed". -/
def delayedSchedules : String → Option FlightMonitorService.Schedule :=
  fun _ => some ⟨"LH123", some "delayed"⟩

open FlightMonitorService in
/-- C8 counterexample: with no live position and an existing schedule whose
status field is "delayed", getFlightDetails returns a view whose status is
"delayed" (the code uses `schedule.status || 'scheduled'`), so the claim
that the schedule-only view always has status "scheduled" is false. -/
theorem getFlightDetails_status_counterexample :
    (getFlightDetails [] (fun _ => none) delayedSchedules "LH123").map
        (fun v => v.status) = some "delayed" ∧
    (getFlightDetails [] (fun _ => none) delayedSchedules "LH123").map
        (fun v => v.status) ≠ some "scheduled" := by
  exact ⟨rfl, by decide⟩

open FlightMonitorService in
/-- C8 (amended): for an identifier with no matching live position entry,
getFlightDetails returns a schedule-only view with position absent whose
status is the schedule's status when present and non-empty, and "scheduled"
otherwise; when no schedule exists either, it returns an explicit absent
result (null), not an error. -/
theorem getFlightDetails_schedule_fallback (positions : List RawEntry)
    (gates : String → Option (String × String))
    (schedules : String → Option Schedule) (fn : String)
    (hlive : positions.filter (fun p => p.callsign.startsWith fn) = []) :
    (∀ s, schedules fn.trim = some s →
      getFlightDetails positions gates schedules fn =
        some ⟨fn, none, none, none, none, statusOrD s.status "scheduled", some s⟩) ∧
    (schedules fn.trim = none →
      getFlightDetails positions gates schedules fn = none) := by
  constructor
  · intro s hs
    simp [getFlightDetails, hlive, hs]
  · intro hs
    simp [getFlightDetails, hlive, hs]

open FlightMonitorService in
/-- Witness for C8 (amended): with no live entries, LH123 resolves to its
schedule-only view (status "delayed") and an unknown flight resolves to
null. -/
theorem getFlightDetails_schedule_fallback_witness :
    (∀ s, delayedSchedules "LH123".trim = some s →
      getFlightDetails [] (fun _ => none) delayedSchedules "LH123" =
        some ⟨"LH123", none, none, none, none, statusOrD s.status "scheduled", some s⟩) ∧
    (delayedSchedules "LH123".trim = none →
      getFlightDetails [] (fun _ => none) delayedSchedules "LH123" = none) :=
  getFlightDetails_schedule_fallback [] (fun _ => none) delayedSchedules "LH123" rfl

namespace CollisionDetectionService

/-- checkPairCollision_isSome: an alert is emitted exactly when the pair is
unsafe (horizontal distance below SAFE_DISTANCE_KM and altitude difference
below SAFE_ALTITUDE_DIFF_FT). -/
theorem checkPairCollision_isSome (now : ℕ) (a1 a2 : AircraftPosition) :
    (checkPairCollision now a1 a2).isSome = true ↔
      (calculateDistance a1.latitude a1.longitude a2.latitude a2.longitude <
          SAFE_DISTANCE_KM ∧
        |a1.altitude - a2.altitude| < SAFE_ALTITUDE_DIFF_FT) := by
  by_cases h : calculateDistance a1.latitude a1.longitude a2.latitude a2.longitude <
      SAFE_DISTANCE_KM ∧ |a1.altitude - a2.altitude| < SAFE_ALTITUDE_DIFF_FT
  · simp [checkPairCollision, h]
  · simp [checkPairCollision, h]

/-- checkPairCollision_some: the fields of an emitted alert. -/
theorem checkPairCollision_some (now : ℕ) (a1 a2 : AircraftPosition)
    (al : CollisionAlert) (h : checkPairCollision now a1 a2 = some al) :
    al.aircraft1 = a1.callsign ∧ al.aircraft2 = a2.callsign ∧
    al.distance =
      round2 (calculateDistance a1.latitude a1.longitude a2.latitude a2.longitude) ∧
    al.altitudeDiff = round |a1.altitude - a2.altitude| ∧
    al.severity =
      calculateSeverity
        (calculateDistance a1.latitude a1.longitude a2.latitude a2.longitude)
        |a1.altitude - a2.altitude| := by
  unfold checkPairCollision at h
  split at h
  · injection h with h
    subst h
    exact ⟨rfl, rfl, rfl, rfl, rfl⟩
  · exact Option.noConfusion h

/-- hav_symm: the haversine quantity is symmetric in the two points. -/
theorem hav_symm (lat1 lon1 lat2 lon2 : ℚ) :
    hav lat2 lon2 lat1 lon1 = hav lat1 lon1 lat2 lon2 := by
  unfold hav toRad
  have h1 : ((lat1 : ℝ) - (lat2 : ℝ)) * Real.pi / 180 / 2 =
      -(((lat2 : ℝ) - (lat1 : ℝ)) * Real.pi / 180 / 2) := by ring
  have h2 : ((lon1 : ℝ) - (lon2 : ℝ)) * Real.pi / 180 / 2 =
      -(((lon2 : ℝ) - (lon1 : ℝ)) * Real.pi / 180 / 2) := by ring
  rw [h1, h2, Real.sin_neg, Real.sin_neg]
  ring

/-- calculateDistance_symm: the haversine distance is symmetric. -/
theorem calculateDistance_symm (lat1 lon1 lat2 lon2 : ℚ) :
    calculateDistance lat2 lon2 lat1 lon1 = calculateDistance lat1 lon1 lat2 lon2 := by
  unfold calculateDistance
  rw [hav_symm]

/-- mem_pairScan: the pairwise scan produces exactly the non-null values of
`f p q` over ordered two-element sublists `[p, q]` of the input. -/
theorem mem_pairScan {α β : Type} (f : α → α → Option β) (l : List α) (b : β) :
    b ∈ pairScan f l ↔ ∃ p q, [p, q].Sublist l ∧ f p q = some b := by
  induction l with
  | nil =>
    constructor
    · intro h
      exact absurd h (List.not_mem_nil b)
    · rintro ⟨p, q, hsub, _⟩
      exact absurd (List.sublist_nil.mp hsub) (by simp)
  | cons x rest ih =>
    simp only [pairScan, List.mem_append, List.mem_filterMap, ih]
    constructor
    · rintro (⟨q, hq, hfq⟩ | ⟨p, q, hsub, hf⟩)
      · exact ⟨x, q, List.Sublist.cons₂ x (List.singleton_sublist.mpr hq), hfq⟩
      · exact ⟨p, q, List.Sublist.cons x hsub, hf⟩
    · rintro ⟨p, q, hsub, hf⟩
      cases hsub with
      | cons _ h => exact Or.inr ⟨p, q, h, hf⟩
      | cons₂ _ h => exact Or.inl ⟨q, List.singleton_sublist.mp h, hf⟩

/-- pair_sublist_of_mem: two members of a list with different keys form an
ordered two-element sublist in one order or the other. -/
theorem pair_sublist_of_mem {α : Type} (ks : α → String) :
    ∀ (l : List α) (a b : α), a ∈ l → b ∈ l → ks a ≠ ks b →
      [a, b].Sublist l ∨ [b, a].Sublist l := by
  intro l
  induction l with
  | nil => intro a b ha _ _; exact absurd ha (List.not_mem_nil a)
  | cons x rest ih =>
    intro a b ha hb hne
    rcases List.mem_cons.mp ha with rfl | har
    · have hbr : b ∈ rest := by
        rcases List.mem_cons.mp hb with rfl | h
        · exact absurd rfl hne
        · exact h
      exact Or.inl (List.Sublist.cons₂ a (List.singleton_sublist.mpr hbr))
    · rcases List.mem_cons.mp hb with rfl | hbr
      · exact Or.inr (List.Sublist.cons₂ b (List.singleton_sublist.mpr har))
      · rcases ih a b har hbr hne with h | h
        · exact Or.inl (List.Sublist.cons x h)
        · exact Or.inr (List.Sublist.cons x h)

/-- two_le_length_of_mem_ne: a list with two distinct members has length at
least two. -/
theorem two_le_length_of_mem_ne {α : Type} {l : List α} {a b : α}
    (ha : a ∈ l) (hb : b ∈ l) (hne : a ≠ b) : 2 ≤ l.length := by
  cases l with
  | nil => exact absurd ha (List.not_mem_nil a)
  | cons x rest =>
    cases rest with
    | nil =>
      have ha2 := List.mem_singleton.mp ha
      have hb2 := List.mem_singleton.mp hb
      exact absurd (ha2.trans hb2.symm) hne
    | cons y t =>
      simp only [List.length_cons]
      omega

end CollisionDetectionService

open CollisionDetectionService in
/-- C1: for two distinct non-grounded aircraft in the snapshot (callsigns
pairwise distinct), one evaluation cycle emits a collision alert for that
pair if and only if their haversine distance is strictly below
SAFE_DISTANCE_KM and their absolute altitude difference is strictly below
SAFE_ALTITUDE_DIFF_FT; in particular pairs at distance at least 5 km or
altitude difference at least 1000 ft produce no alert. -/
theorem collision_pair_alert_iff (now : ℕ) (raw : List RawEntry)
    (A B : AircraftPosition)
    (hnd : ((collisionPositions raw).map (fun p => p.callsign)).Nodup)
    (hA : A ∈ collisionPositions raw) (hB : B ∈ collisionPositions raw)
    (hne : A.callsign ≠ B.callsign) :
    (∃ al ∈ checkCollisionRisks now raw,
      (al.aircraft1 = A.callsign ∧ al.aircraft2 = B.callsign) ∨
      (al.aircraft1 = B.callsign ∧ al.aircraft2 = A.callsign)) ↔
    (calculateDistance A.latitude A.longitude B.latitude B.longitude <
        SAFE_DISTANCE_KM ∧
      |A.altitude - B.altitude| < SAFE_ALTITUDE_DIFF_FT) := by
  have hAB : A ≠ B := fun h => hne (congrArg (fun p => p.callsign) h)
  have hlen2 : 2 ≤ (collisionPositions raw).length := two_le_length_of_mem_ne hA hB hAB
  have hraw : ¬ raw.length < 2 := by
    have h1 : (collisionPositions raw).length ≤ raw.length := by
      unfold collisionPositions
      rw [List.length_map]
      exact List.length_filter_le _ raw
    omega
  have hinj := List.inj_on_of_nodup_map hnd
  constructor
  · rintro ⟨al, hal, hcase⟩
    rw [checkCollisionRisks, if_neg hraw] at hal
    rcases (mem_pairScan _ _ al).mp hal with ⟨p, q, hsub, hf⟩
    have hp : p ∈ collisionPositions raw := hsub.mem (by simp)
    have hq : q ∈ collisionPositions raw := hsub.mem (by simp)
    obtain ⟨e1, e2, _, _, _⟩ := checkPairCollision_some now p q al hf
    have hcond : calculateDistance p.latitude p.longitude q.latitude q.longitude <
        SAFE_DISTANCE_KM ∧ |p.altitude - q.altitude| < SAFE_ALTITUDE_DIFF_FT := by
      refine (checkPairCollision_isSome now p q).mp ?_
      rw [hf]
      rfl
    rcases hcase with ⟨hc1, hc2⟩ | ⟨hc1, hc2⟩
    · have hpA : p = A := hinj hp hA (by rw [← e1]; exact hc1)
      have hqB : q = B := hinj hq hB (by rw [← e2]; exact hc2)
      subst hpA
      subst hqB
      exact hcond
    · have hpB : p = B := hinj hp hB (by rw [← e1]; exact hc1)
      have hqA : q = A := hinj hq hA (by rw [← e2]; exact hc2)
      rw [hpB, hqA] at hcond
      constructor
      · rw [calculateDistance_symm A.latitude A.longitude B.latitude B.longitude] at hcond
        exact hcond.1
      · rw [abs_sub_comm] at hcond
        exact hcond.2
  · intro hcond
    rw [checkCollisionRisks, if_neg hraw]
    rcases pair_sublist_of_mem (fun p => p.callsign) (collisionPositions raw) A B hA hB hne
      with hsub | hsub
    · have hsome : (checkPairCollision now A B).isSome = true :=
        (checkPairCollision_isSome now A B).mpr hcond
      rcases Option.isSome_iff_exists.mp hsome with ⟨al, hal⟩
      refine ⟨al, (mem_pairScan _ _ al).mpr ⟨A, B, hsub, hal⟩, ?_⟩
      obtain ⟨e1, e2, _, _, _⟩ := checkPairCollision_some now A B al hal
      exact Or.inl ⟨e1, e2⟩
    · have hcond2 : calculateDistance B.latitude B.longitude A.latitude A.longitude <
          SAFE_DISTANCE_KM ∧ |B.altitude - A.altitude| < SAFE_ALTITUDE_DIFF_FT := by
        constructor
        · rw [calculateDistance_symm A.latitude A.longitude B.latitude B.longitude]
          exact hcond.1
        · rw [abs_sub_comm]
          exact hcond.2
      have hsome : (checkPairCollision now B A).isSome = true :=
        (checkPairCollision_isSome now B A).mpr hcond2
      rcases Option.isSome_iff_exists.mp hsome with ⟨al, hal⟩
      refine ⟨al, (mem_pairScan _ _ al).mpr ⟨B, A, hsub, hal⟩, ?_⟩
      obtain ⟨e1, e2, _, _, _⟩ := checkPairCollision_some now B A al hal
      exact Or.inr ⟨e1, e2⟩

namespace CollisionDetectionService

/-- calculateDistance_self: the haversine distance from a point to itself is
zero. -/
theorem calculateDistance_self (lat lon : ℚ) : calculateDistance lat lon lat lon = 0 := by
  have hhav : hav lat lon lat lon = 0 := by
    unfold hav toRad
    norm_num
  unfold calculateDistance atan2
  rw [hhav]
  norm_num

end CollisionDetectionService

/-- rawPairA is a concrete airborne snapshot entry used for the collision
witnesses. -/
def rawPairA : RawEntry := ⟨"WA", 50, 8, 10000, 400, 90, false⟩

/-- rawPairB is a second concrete airborne entry at the same coordinates with
a 200 ft altitude difference. -/
def rawPairB : RawEntry := ⟨"WB", 50, 8, 10200, 410, 91, false⟩

/-- posPairA is rawPairA as an AircraftPosition. -/
def posPairA : CollisionDetectionService.AircraftPosition :=
  ⟨"WA", 50, 8, 10000, 400, 90⟩

/-- posPairB is rawPairB as an AircraftPosition. -/
def posPairB : CollisionDetectionService.AircraftPosition :=
  ⟨"WB", 50, 8, 10200, 410, 91⟩

open CollisionDetectionService in
/-- Witness for C1: a concrete two-aircraft snapshot at identical coordinates
and 200 ft apart, where the alert-iff-unsafe equivalence is instantiated. -/
theorem collision_pair_alert_iff_witness :
    (∃ al ∈ checkCollisionRisks 4 [rawPairA, rawPairB],
      (al.aircraft1 = posPairA.callsign ∧ al.aircraft2 = posPairB.callsign) ∨
      (al.aircraft1 = posPairB.callsign ∧ al.aircraft2 = posPairA.callsign)) ↔
    (calculateDistance posPairA.latitude posPairA.longitude posPairB.latitude
        posPairB.longitude < SAFE_DISTANCE_KM ∧
      |posPairA.altitude - posPairB.altitude| < SAFE_ALTITUDE_DIFF_FT) := by
  have hpos : collisionPositions [rawPairA, rawPairB] = [posPairA, posPairB] := rfl
  refine collision_pair_alert_iff 4 [rawPairA, rawPairB] posPairA posPairB ?_ ?_ ?_ ?_
  · rw [hpos]
    decide
  · rw [hpos]
    exact List.mem_cons_self posPairA [posPairB]
  · rw [hpos]
    exact List.mem_cons_of_mem _ (List.mem_singleton.mpr rfl)
  · decide

open CollisionDetectionService in
/-- C2: the severity of an emitted collision alert is decided by first match
in order on the raw distance and altitude difference: CRITICAL when
distance < 2 km and altitude difference < 500 ft; otherwise HIGH when
distance < 3 km and altitude difference < 700 ft; otherwise MEDIUM. -/
theorem collision_severity_ladder (now : ℕ) (a1 a2 : AircraftPosition)
    (al : CollisionAlert) (h : checkPairCollision now a1 a2 = some al) :
    (calculateDistance a1.latitude a1.longitude a2.latitude a2.longitude < 2 ∧
        |a1.altitude - a2.altitude| < 500 →
      al.severity = "CRITICAL") ∧
    (¬(calculateDistance a1.latitude a1.longitude a2.latitude a2.longitude < 2 ∧
        |a1.altitude - a2.altitude| < 500) →
      calculateDistance a1.latitude a1.longitude a2.latitude a2.longitude < 3 ∧
        |a1.altitude - a2.altitude| < 700 →
      al.severity = "HIGH") ∧
    (¬(calculateDistance a1.latitude a1.longitude a2.latitude a2.longitude < 2 ∧
        |a1.altitude - a2.altitude| < 500) →
      ¬(calculateDistance a1.latitude a1.longitude a2.latitude a2.longitude < 3 ∧
        |a1.altitude - a2.altitude| < 700) →
      al.severity = "MEDIUM") := by
  obtain ⟨_, _, _, _, hs⟩ := checkPairCollision_some now a1 a2 al h
  rw [hs]
  unfold calculateSeverity
  refine ⟨?_, ?_, ?_⟩
  · intro hc
    rw [if_pos hc]
  · intro hn hc
    rw [if_neg hn, if_pos hc]
  · intro hn1 hn2
    rw [if_neg hn1, if_neg hn2]

open CollisionDetectionService in
/-- Witness for C2: two aircraft at identical coordinates and altitude
10000 vs 10200 ft emit an alert, and the ladder applies to it (here the
distance is 0 and the altitude difference 200, so it is CRITICAL). -/
theorem collision_severity_ladder_witness :
    ∃ al, checkPairCollision 4 posPairA posPairB = some al ∧
      ((calculateDistance posPairA.latitude posPairA.longitude posPairB.latitude
            posPairB.longitude < 2 ∧ |posPairA.altitude - posPairB.altitude| < 500 →
        al.severity = "CRITICAL") ∧
      (¬(calculateDistance posPairA.latitude posPairA.longitude posPairB.latitude
            posPairB.longitude < 2 ∧ |posPairA.altitude - posPairB.altitude| < 500) →
        calculateDistance posPairA.latitude posPairA.longitude posPairB.latitude
            posPairB.longitude < 3 ∧ |posPairA.altitude - posPairB.altitude| < 700 →
        al.severity = "HIGH") ∧
      (¬(calculateDistance posPairA.latitude posPairA.longitude posPairB.latitude
            posPairB.longitude < 2 ∧ |posPairA.altitude - posPairB.altitude| < 500) →
        ¬(calculateDistance posPairA.latitude posPairA.longitude posPairB.latitude
            posPairB.longitude < 3 ∧ |posPairA.altitude - posPairB.altitude| < 700) →
        al.severity = "MEDIUM")) := by
  have hd : calculateDistance posPairA.latitude posPairA.longitude posPairB.latitude
      posPairB.longitude = 0 := calculateDistance_self 50 8
  have hcond : calculateDistance posPairA.latitude posPairA.longitude posPairB.latitude
      posPairB.longitude < SAFE_DISTANCE_KM ∧
      |posPairA.altitude - posPairB.altitude| < SAFE_ALTITUDE_DIFF_FT := by
    rw [hd]
    constructor
    · norm_num [SAFE_DISTANCE_KM]
    · norm_num [posPairA, posPairB, SAFE_ALTITUDE_DIFF_FT]
  have hsome : (checkPairCollision 4 posPairA posPairB).isSome = true :=
    (checkPairCollision_isSome 4 posPairA posPairB).mpr hcond
  rcases Option.isSome_iff_exists.mp hsome with ⟨al, hal⟩
  exact ⟨al, hal, collision_severity_ladder 4 posPairA posPairB al hal⟩

namespace CollisionDetectionService

/-- samePair states that two collision alerts concern the same unordered
pair of callsigns. -/
def samePair (x y : CollisionAlert) : Prop :=
  (x.aircraft1 = y.aircraft1 ∧ x.aircraft2 = y.aircraft2) ∨
  (x.aircraft1 = y.aircraft2 ∧ x.aircraft2 = y.aircraft1)

/-- pairwise_filterMap_of_pairwise transfers a pairwise relation through
`filterMap`, keeping track of list membership. -/
theorem pairwise_filterMap_of_pairwise {α β : Type} (f : α → Option β)
    (R : β → β → Prop) (S : α → α → Prop) :
    ∀ l : List α, l.Pairwise S →
      (∀ a b x y, a ∈ l → b ∈ l → S a b → f a = some x → f b = some y → R x y) →
      (l.filterMap f).Pairwise R := by
  intro l
  induction l with
  | nil => intro _ _; simp
  | cons a l ih =>
    intro hp himp
    rw [List.pairwise_cons] at hp
    rw [List.filterMap_cons]
    have hrec : (l.filterMap f).Pairwise R :=
      ih hp.2 (fun a' b' x y ha hb hs hfa hfb =>
        himp a' b' x y (List.mem_cons_of_mem a ha) (List.mem_cons_of_mem a hb) hs hfa hfb)
    cases hfa : f a with
    | none => exact hrec
    | some x =>
      refine List.Pairwise.cons ?_ hrec
      intro y hy
      rcases List.mem_filterMap.mp hy with ⟨b, hb, hfb⟩
      exact himp a b x y (List.mem_cons_self a l) (List.mem_cons_of_mem a hb)
        (hp.1 b hb) hfa hfb

/-- pairScan_callsigns: every alert produced by the pairwise scan names two
callsigns occurring in the scanned list. -/
theorem pairScan_callsigns (now : ℕ) (l : List AircraftPosition)
    (al : CollisionAlert) (h : al ∈ pairScan (checkPairCollision now) l) :
    al.aircraft1 ∈ l.map (fun p => p.callsign) ∧
    al.aircraft2 ∈ l.map (fun p => p.callsign) := by
  rcases (mem_pairScan _ l al).mp h with ⟨p, q, hsub, hf⟩
  have hp : p ∈ l := hsub.mem (by simp)
  have hq : q ∈ l := hsub.mem (by simp)
  obtain ⟨e1, e2, _, _, _⟩ := checkPairCollision_some now p q al hf
  constructor
  · rw [e1]
    exact List.mem_map_of_mem _ hp
  · rw [e2]
    exact List.mem_map_of_mem _ hq

/-- pairScan_pairwise_distinct: over positions with pairwise-distinct
callsigns, no two alerts of one scan concern the same unordered pair. -/
theorem pairScan_pairwise_distinct (now : ℕ) :
    ∀ l : List AircraftPosition, (l.map (fun p => p.callsign)).Nodup →
      (pairScan (checkPairCollision now) l).Pairwise (fun x y => ¬ samePair x y) := by
  intro l
  induction l with
  | nil => intro _; simp [pairScan]
  | cons p rest ih =>
    intro hnd
    have hx : p.callsign ∉ rest.map (fun q => q.callsign) := by
      have := hnd
      rw [List.map_cons, List.nodup_cons] at this
      exact this.1
    have hnd2 : (rest.map (fun q => q.callsign)).Nodup := by
      have := hnd
      rw [List.map_cons, List.nodup_cons] at this
      exact this.2
    show (rest.filterMap (checkPairCollision now p) ++
      pairScan (checkPairCollision now) rest).Pairwise (fun x y => ¬ samePair x y)
    rw [List.pairwise_append]
    refine ⟨?_, ih hnd2, ?_⟩
    · have hpw : rest.Pairwise (fun q1 q2 => q1.callsign ≠ q2.callsign) :=
        List.pairwise_map.mp hnd2
      refine pairwise_filterMap_of_pairwise _ _ _ rest hpw ?_
      intro q1 q2 x y hq1 hq2 hS hf1 hf2 hsame
      obtain ⟨e1a, e1b, _, _, _⟩ := checkPairCollision_some now p q1 x hf1
      obtain ⟨e2a, e2b, _, _, _⟩ := checkPairCollision_some now p q2 y hf2
      rcases hsame with ⟨_, h2⟩ | ⟨h1, _⟩
      · rw [e1b, e2b] at h2
        exact hS h2
      · rw [e1a, e2b] at h1
        exact hx (h1 ▸ List.mem_map_of_mem _ hq2)
    · intro x hx2 y hy2 hsame
      rcases List.mem_filterMap.mp hx2 with ⟨q, hq, hfq⟩
      obtain ⟨ex1, _, _, _, _⟩ := checkPairCollision_some now p q x hfq
      have hy3 := pairScan_callsigns now rest y hy2
      rcases hsame with ⟨h1, _⟩ | ⟨h1, _⟩
      · rw [ex1] at h1
        exact hx (h1 ▸ hy3.1)
      · rw [ex1] at h1
        exact hx (h1 ▸ hy3.2)

end CollisionDetectionService

open CollisionDetectionService in
/-- C5: collision detection is symmetric: checkPairCollision yields an alert
for (A, B) exactly when it does for (B, A), with the same distance, altitude
difference, and severity; and one evaluation cycle emits at most one alert
per unordered pair of callsigns (no two alerts of a cycle share a pair). -/
theorem collision_symmetry_dedup (now : ℕ) (raw : List RawEntry)
    (hnd : ((collisionPositions raw).map (fun p => p.callsign)).Nodup) :
    (∀ a b : AircraftPosition,
      (checkPairCollision now a b).isSome = (checkPairCollision now b a).isSome) ∧
    (∀ (a b : AircraftPosition) (x y : CollisionAlert),
      checkPairCollision now a b = some x → checkPairCollision now b a = some y →
      x.distance = y.distance ∧ x.altitudeDiff = y.altitudeDiff ∧
        x.severity = y.severity) ∧
    (checkCollisionRisks now raw).Pairwise (fun x y => ¬ samePair x y) := by
  have hsymm : ∀ a b : AircraftPosition,
      (calculateDistance a.latitude a.longitude b.latitude b.longitude <
          SAFE_DISTANCE_KM ∧ |a.altitude - b.altitude| < SAFE_ALTITUDE_DIFF_FT) ↔
      (calculateDistance b.latitude b.longitude a.latitude a.longitude <
          SAFE_DISTANCE_KM ∧ |b.altitude - a.altitude| < SAFE_ALTITUDE_DIFF_FT) := by
    intro a b
    rw [calculateDistance_symm a.latitude a.longitude b.latitude b.longitude,
      abs_sub_comm b.altitude a.altitude]
  refine ⟨?_, ?_, ?_⟩
  · intro a b
    by_cases h : calculateDistance a.latitude a.longitude b.latitude b.longitude <
        SAFE_DISTANCE_KM ∧ |a.altitude - b.altitude| < SAFE_ALTITUDE_DIFF_FT
    · have h2 := (hsymm a b).mp h
      rw [(checkPairCollision_isSome now a b).mpr h,
        (checkPairCollision_isSome now b a).mpr h2]
    · have h2 : ¬ (calculateDistance b.latitude b.longitude a.latitude a.longitude <
          SAFE_DISTANCE_KM ∧ |b.altitude - a.altitude| < SAFE_ALTITUDE_DIFF_FT) :=
        fun hc => h ((hsymm a b).mpr hc)
      have e1 : (checkPairCollision now a b).isSome ≠ true := by
        intro hs
        exact h ((checkPairCollision_isSome now a b).mp hs)
      have e2 : (checkPairCollision now b a).isSome ≠ true := by
        intro hs
        exact h2 ((checkPairCollision_isSome now b a).mp hs)
      rw [Bool.eq_false_iff.mpr e1, Bool.eq_false_iff.mpr e2]
  · intro a b x y hab hba
    obtain ⟨_, _, hd1, ha1, hs1⟩ := checkPairCollision_some now a b x hab
    obtain ⟨_, _, hd2, ha2, hs2⟩ := checkPairCollision_some now b a y hba
    rw [calculateDistance_symm a.latitude a.longitude b.latitude b.longitude] at hd2 hs2
    rw [abs_sub_comm b.altitude a.altitude] at ha2 hs2
    exact ⟨hd1.trans hd2.symm, ha1.trans ha2.symm, hs1.trans hs2.symm⟩
  · rw [checkCollisionRisks]
    by_cases hlen : raw.length < 2
    · rw [if_pos hlen]
      simp
    · rw [if_neg hlen]
      exact pairScan_pairwise_distinct now (collisionPositions raw) hnd

open CollisionDetectionService in
/-- Witness for C5 on the concrete two-aircraft snapshot. -/
theorem collision_symmetry_dedup_witness :
    (∀ a b : AircraftPosition,
      (checkPairCollision 4 a b).isSome = (checkPairCollision 4 b a).isSome) ∧
    (∀ (a b : AircraftPosition) (x y : CollisionAlert),
      checkPairCollision 4 a b = some x → checkPairCollision 4 b a = some y →
      x.distance = y.distance ∧ x.altitudeDiff = y.altitudeDiff ∧
        x.severity = y.severity) ∧
    (checkCollisionRisks 4 [rawPairA, rawPairB]).Pairwise
      (fun x y => ¬ samePair x y) :=
  collision_symmetry_dedup 4 [rawPairA, rawPairB]
    (by rw [show collisionPositions [rawPairA, rawPairB] = [posPairA, posPairB] from rfl]
        decide)

namespace CollisionDetectionService

/-- dist_core_bounds: for any haversine value between 6.85e-8 and 7.7e-8 the
resulting great-circle distance lies in the interval [3, 5). -/
theorem dist_core_bounds (a : ℝ) (hal : (6.85e-8 : ℝ) < a) (hau : a < 7.7e-8) :
    3 ≤ 6371 * (2 * atan2 (Real.sqrt a) (Real.sqrt (1 - a))) ∧
      6371 * (2 * atan2 (Real.sqrt a) (Real.sqrt (1 - a))) < 5 := by
  have hsa_lb : (0.0002617 : ℝ) < Real.sqrt a := by
    rw [Real.lt_sqrt (by norm_num)]
    nlinarith
  have hsa_ub : Real.sqrt a < 0.000278 := by
    rw [Real.sqrt_lt' (by norm_num)]
    nlinarith
  have h1a_lb : (0.999 : ℝ) < Real.sqrt (1 - a) := by
    rw [Real.lt_sqrt (by nlinarith)]
    nlinarith
  have h1a_ub : Real.sqrt (1 - a) ≤ 1 := by
    have h := Real.sqrt_le_sqrt (show 1 - a ≤ 1 by nlinarith)
    rwa [Real.sqrt_one] at h
  have hsql : (0 : ℝ) < Real.sqrt (1 - a) := by linarith
  have hatan : atan2 (Real.sqrt a) (Real.sqrt (1 - a)) =
      Real.arctan (Real.sqrt a / Real.sqrt (1 - a)) := by
    unfold atan2
    rw [if_pos hsql]
  have ht_lb : (0.0002617 : ℝ) < Real.sqrt a / Real.sqrt (1 - a) := by
    have h1 : Real.sqrt a ≤ Real.sqrt a / Real.sqrt (1 - a) := by
      rw [le_div_iff₀ hsql]
      exact mul_le_of_le_one_right (Real.sqrt_nonneg a) h1a_ub
    linarith
  have ht_ub : Real.sqrt a / Real.sqrt (1 - a) < 0.000279 := by
    rw [div_lt_iff₀ hsql]
    nlinarith
  have th0 : (3 : ℝ) / 12742 < Real.pi / 2 := by
    nlinarith [Real.pi_gt_three]
  have th1 : (5 : ℝ) / 12742 < Real.pi / 2 := by
    nlinarith [Real.pi_gt_three]
  have hcosθ : (0.9 : ℝ) ≤ Real.cos (3 / 12742) := by
    have h2 := Real.one_sub_sq_div_two_le_cos (x := (3 : ℝ) / 12742)
    nlinarith
  have hsinθ : Real.sin ((3 : ℝ) / 12742) < 3 / 12742 := Real.sin_lt (by norm_num)
  have hcos_pos : (0 : ℝ) < Real.cos (3 / 12742) := by linarith
  have htan_ub : Real.tan ((3 : ℝ) / 12742) < 0.0002617 := by
    rw [Real.tan_eq_sin_div_cos, div_lt_iff₀ hcos_pos]
    nlinarith
  have harctan_lb : (3 : ℝ) / 12742 ≤
      Real.arctan (Real.sqrt a / Real.sqrt (1 - a)) := by
    have h1 : Real.arctan (Real.tan ((3 : ℝ) / 12742)) = 3 / 12742 :=
      Real.arctan_tan (by nlinarith [Real.pi_gt_three]) th0
    rw [← h1]
    exact le_of_lt (Real.arctan_strictMono (by linarith))
  have htan_lb : (5 : ℝ) / 12742 < Real.tan ((5 : ℝ) / 12742) :=
    Real.lt_tan (by norm_num) th1
  have harctan_ub : Real.arctan (Real.sqrt a / Real.sqrt (1 - a)) <
      (5 : ℝ) / 12742 := by
    have h1 : Real.arctan (Real.tan ((5 : ℝ) / 12742)) = 5 / 12742 :=
      Real.arctan_tan (by nlinarith [Real.pi_gt_three]) th1
    rw [← h1]
    refine Real.arctan_strictMono ?_
    have : (0.000279 : ℝ) < 5 / 12742 := by norm_num
    linarith
  rw [hatan]
  constructor
  · nlinarith
  · nlinarith

end CollisionDetectionService

namespace CollisionDetectionService

/-- hav_c9_bounds: at the C9 scenario coordinates (50.1000, 8.6000) and
(50.1300, 8.6100), the haversine quantity lies between 6.85e-8 and 7.7e-8. -/
theorem hav_c9_bounds :
    (6.85e-8 : ℝ) < hav 50.1 8.6 50.13 8.61 ∧ hav 50.1 8.6 50.13 8.61 < 7.7e-8 := by
  have hπl : (3.141592 : ℝ) < Real.pi := Real.pi_gt_d6
  have hπu : Real.pi < 3.141593 := Real.pi_lt_d6
  have hπ0 : (0 : ℝ) < Real.pi := Real.pi_pos
  have c1 : ((50.13 : ℚ) : ℝ) - ((50.1 : ℚ) : ℝ) = 3 / 100 := by norm_num
  have c2 : ((8.61 : ℚ) : ℝ) - ((8.6 : ℚ) : ℝ) = 1 / 100 := by norm_num
  have e1 : toRad (((50.13 : ℚ) : ℝ) - ((50.1 : ℚ) : ℝ)) / 2 = Real.pi / 12000 := by
    unfold toRad
    rw [c1]
    ring
  have e2 : toRad (((8.61 : ℚ) : ℝ) - ((8.6 : ℚ) : ℝ)) / 2 = Real.pi / 36000 := by
    unfold toRad
    rw [c2]
    ring
  have hx1pos : (0 : ℝ) < Real.pi / 12000 := by positivity
  have hx1le : Real.pi / 12000 ≤ 1 := by linarith
  have hx2pos : (0 : ℝ) < Real.pi / 36000 := by positivity
  have hcube : (Real.pi / 12000) ^ 3 < 1.8e-11 := by
    have hb : Real.pi / 12000 < 3.141593 / 12000 := by linarith
    have h3 : (Real.pi / 12000) ^ 3 < (3.141593 / 12000 : ℝ) ^ 3 := by
      apply pow_lt_pow_left₀ hb (le_of_lt hx1pos)
      norm_num
    have h4 : ((3.141593 : ℝ) / 12000) ^ 3 < 1.8e-11 := by norm_num
    linarith
  have hs1lb : (0.000261799 : ℝ) < Real.sin (Real.pi / 12000) := by
    have hgt := Real.sin_gt_sub_cube hx1pos hx1le
    have hlow : (3.141592 : ℝ) / 12000 < Real.pi / 12000 := by linarith
    nlinarith
  have hs1ub : Real.sin (Real.pi / 12000) < 0.0002618 := by
    have := Real.sin_lt hx1pos
    linarith
  have hs1pos : (0 : ℝ) < Real.sin (Real.pi / 12000) := by linarith
  have hs2ub : Real.sin (Real.pi / 36000) < 0.00008727 := by
    have := Real.sin_lt hx2pos
    linarith
  have hs2nn : (0 : ℝ) ≤ Real.sin (Real.pi / 36000) :=
    Real.sin_nonneg_of_nonneg_of_le_pi (le_of_lt hx2pos) (by nlinarith)
  have hmemA : toRad ((50.1 : ℚ) : ℝ) ∈ Set.Icc (-(Real.pi / 2)) (Real.pi / 2) := by
    unfold toRad
    constructor
    · have : ((50.1 : ℚ) : ℝ) = 501 / 10 := by norm_num
      rw [this]
      nlinarith
    · have : ((50.1 : ℚ) : ℝ) = 501 / 10 := by norm_num
      rw [this]
      nlinarith
  have hmemB : toRad ((50.13 : ℚ) : ℝ) ∈ Set.Icc (-(Real.pi / 2)) (Real.pi / 2) := by
    unfold toRad
    constructor
    · have : ((50.13 : ℚ) : ℝ) = 5013 / 100 := by norm_num
      rw [this]
      nlinarith
    · have : ((50.13 : ℚ) : ℝ) = 5013 / 100 := by norm_num
      rw [this]
      nlinarith
  have hcA0 : (0 : ℝ) ≤ Real.cos (toRad ((50.1 : ℚ) : ℝ)) :=
    Real.cos_nonneg_of_mem_Icc hmemA
  have hcA1 : Real.cos (toRad ((50.1 : ℚ) : ℝ)) ≤ 1 := Real.cos_le_one _
  have hcB0 : (0 : ℝ) ≤ Real.cos (toRad ((50.13 : ℚ) : ℝ)) :=
    Real.cos_nonneg_of_mem_Icc hmemB
  have hcB1 : Real.cos (toRad ((50.13 : ℚ) : ℝ)) ≤ 1 := Real.cos_le_one _
  have hhav : hav 50.1 8.6 50.13 8.61 =
      Real.sin (Real.pi / 12000) * Real.sin (Real.pi / 12000) +
        Real.cos (toRad ((50.1 : ℚ) : ℝ)) * Real.cos (toRad ((50.13 : ℚ) : ℝ)) *
          (Real.sin (Real.pi / 36000) * Real.sin (Real.pi / 36000)) := by
    unfold hav
    rw [e1, e2]
  rw [hhav]
  constructor
  · nlinarith [mul_nonneg (mul_nonneg hcA0 hcB0)
      (mul_self_nonneg (Real.sin (Real.pi / 36000)))]
  · have hpc : Real.cos (toRad ((50.1 : ℚ) : ℝ)) * Real.cos (toRad ((50.13 : ℚ) : ℝ)) ≤ 1 :=
      mul_le_one₀ hcA1 hcB0 hcB1
    have hcc : (0 : ℝ) ≤ Real.cos (toRad ((50.1 : ℚ) : ℝ)) *
        Real.cos (toRad ((50.13 : ℚ) : ℝ)) := mul_nonneg hcA0 hcB0
    nlinarith

end CollisionDetectionService

namespace CollisionDetectionService

/-- dist_c9: the haversine distance between (50.1000, 8.6000) and
(50.1300, 8.6100) lies in [3, 5) kilometres. -/
theorem dist_c9 : 3 ≤ calculateDistance 50.1 8.6 50.13 8.61 ∧
    calculateDistance 50.1 8.6 50.13 8.61 < 5 := by
  have h := hav_c9_bounds
  unfold calculateDistance
  exact dist_core_bounds _ h.1 h.2

end CollisionDetectionService

/-- ac901 is the first aircraft of the C9 end-to-end scenario. -/
def ac901 : CollisionDetectionService.AircraftPosition :=
  ⟨"DLH901", 50.1, 8.6, 25000, 400, 90⟩

/-- ac902 is the second aircraft of the C9 end-to-end scenario. -/
def ac902 : CollisionDetectionService.AircraftPosition :=
  ⟨"DLH902", 50.13, 8.61, 25500, 410, 91⟩

namespace CollisionDetectionService

/-- checkPair_c9_eval: the C9 scenario pair is unsafe and its alert has
severity MEDIUM and rounded altitude difference 500. -/
theorem checkPair_c9_eval :
    ∃ al, checkPairCollision 0 ac901 ac902 = some al ∧
      al.severity = "MEDIUM" ∧ al.altitudeDiff = 500 := by
  obtain ⟨hd3, hd5⟩ := dist_c9
  have habs : |(25000 : ℚ) - 25500| = 500 := by norm_num
  have heqd : calculateDistance ac901.latitude ac901.longitude ac902.latitude
      ac902.longitude = calculateDistance 50.1 8.6 50.13 8.61 := rfl
  have heqa : |ac901.altitude - ac902.altitude| = |(25000 : ℚ) - 25500| := rfl
  have hcond : calculateDistance ac901.latitude ac901.longitude ac902.latitude
      ac902.longitude < SAFE_DISTANCE_KM ∧
      |ac901.altitude - ac902.altitude| < SAFE_ALTITUDE_DIFF_FT := by
    constructor
    · rw [heqd]
      unfold SAFE_DISTANCE_KM
      exact hd5
    · rw [heqa, habs]
      norm_num [SAFE_ALTITUDE_DIFF_FT]
  have hsome := (checkPairCollision_isSome 0 ac901 ac902).mpr hcond
  rcases Option.isSome_iff_exists.mp hsome with ⟨al, hal⟩
  obtain ⟨_, _, _, hdiff, hsev⟩ := checkPairCollision_some 0 ac901 ac902 al hal
  have hn1 : ¬(calculateDistance ac901.latitude ac901.longitude ac902.latitude
      ac902.longitude < 2 ∧ |ac901.altitude - ac902.altitude| < 500) := by
    rintro ⟨_, hlt500⟩
    rw [heqa, habs] at hlt500
    exact absurd hlt500 (by norm_num)
  have hn2 : ¬(calculateDistance ac901.latitude ac901.longitude ac902.latitude
      ac902.longitude < 3 ∧ |ac901.altitude - ac902.altitude| < 700) := by
    rintro ⟨hlt3, _⟩
    rw [heqd] at hlt3
    linarith
  refine ⟨al, hal, ?_, ?_⟩
  · rw [hsev]
    unfold calculateSeverity
    rw [if_neg hn1, if_neg hn2]
  · rw [hdiff, heqa, habs, show (500 : ℚ) = ((500 : ℤ) : ℚ) by norm_num, round_intCast]

end CollisionDetectionService

open CollisionDetectionService in
/-- C9 counterexample: for the scenario pair at (50.1000, 8.6000, 25000 ft)
and (50.1300, 8.6100, 25500 ft) the emitted alert's severity is not HIGH
(the distance is at least 3 km, so the HIGH rule does not apply). -/
theorem collision_scenario_severity_counterexample :
    (checkPairCollision 0 ac901 ac902).map (fun al => al.severity) ≠ some "HIGH" := by
  rcases checkPair_c9_eval with ⟨al, hal, hsev, _⟩
  rw [hal, Option.map_some', hsev]
  decide

open CollisionDetectionService in
/-- C9 (amended): the scenario pair is unsafe (distance below 5 km, altitude
difference 500 ft below 1000 ft), so a collision alert is emitted, and its
severity is MEDIUM: the distance is at least 3 km (about 3.41 km), so
neither the CRITICAL rule (also blocked by the altitude difference of
exactly 500 ft) nor the HIGH rule applies. -/
theorem collision_scenario_medium :
    (∃ al, checkPairCollision 0 ac901 ac902 = some al ∧
      al.severity = "MEDIUM" ∧ al.altitudeDiff = 500) ∧
    calculateDistance ac901.latitude ac901.longitude ac902.latitude ac902.longitude <
      SAFE_DISTANCE_KM ∧
    3 ≤ calculateDistance ac901.latitude ac901.longitude ac902.latitude
      ac902.longitude ∧
    |ac901.altitude - ac902.altitude| = 500 := by
  obtain ⟨hd3, hd5⟩ := dist_c9
  have heqd : calculateDistance ac901.latitude ac901.longitude ac902.latitude
      ac902.longitude = calculateDistance 50.1 8.6 50.13 8.61 := rfl
  have heqa : |ac901.altitude - ac902.altitude| = |(25000 : ℚ) - 25500| := rfl
  refine ⟨checkPair_c9_eval, ?_, ?_, ?_⟩
  · rw [heqd]
    unfold SAFE_DISTANCE_KM
    exact hd5
  · rw [heqd]
    exact hd3
  · rw [heqa]
    norm_num
